import Mathlib

/- Shallow embedding of src/backend/internal/propresenter/client.go.

   Network I/O is modelled by a Transport record of per-endpoint oracles,
   each indexed by how many requests the current run has already sent to
   that endpoint.  Every operation threads a state S carrying the client
   fields (the Go Client struct), the per-endpoint request counters, and a
   trace of events: mutex acquire and release, network requests, and
   backoff sleeps.  Go errors (built with fmt.Errorf) are modelled by the
   inductive Err, one constructor per distinct error construction site,
   keeping the wrapped inner error where the Go code wraps with %w.
   Each operation is written as: enabled guard, request, then a pure
   response handler that transcribes the Go response-handling branches. -/

namespace ProP

/- Mirror of the Go struct Config, client.go lines 27-32. -/
structure Config where
  host : String
  port : String
  enabled : Bool
  playlistID : String
deriving DecidableEq

/- Mirror of LibraryItemID, client.go lines 41-45. -/
structure LibraryItemID where
  uuid : String
  name : String
  type : String
deriving DecidableEq

/- Mirror of LibraryItem, client.go lines 35-38. -/
structure LibraryItem where
  id : LibraryItemID
  type : String
deriving DecidableEq

/- Mirror of PlaylistID, client.go lines 54-58. -/
structure PlaylistID where
  uuid : String
  name : String
  type : String
deriving DecidableEq

/- Mirror of PlaylistItemID, client.go lines 69-73. -/
structure PlaylistItemID where
  uuid : String
  name : String
  type : String
deriving DecidableEq

/- Mirror of PlaylistItem, client.go lines 61-66. -/
structure PlaylistItem where
  id : PlaylistItemID
  type : String
  isHidden : Bool
  isEnabled : Bool
deriving DecidableEq

/- Mirror of Playlist, client.go lines 48-51. -/
structure Playlist where
  id : PlaylistID
  items : List PlaylistItem
deriving DecidableEq

/- The mutable fields of the Go Client struct, client.go lines 16-24.
   Wall-clock time is abstracted to a Nat tick passed to the operations
   that store time.Now() into lastCheck. -/
structure ClientState where
  baseURL : String
  enabled : Bool
  connected : Bool
  config : Option Config
  lastCheck : Nat
deriving DecidableEq

/- One outbound HTTP request, identified by endpoint and arguments. -/
inductive Request where
  | getStatus
  | getLibrary (query : Option String)
  | getPlaylists
  | postPlaylists (name : String)
  | putPlaylistAdd (playlistUUID itemUUID : String)
  | getTriggerLibrary (uuid : String)
  | getTriggerNext
  | getTriggerPrevious
  | getClearLayer (layer : String)
deriving DecidableEq

/- One observable event of a run: mutex acquire and release (c.mu.Lock
   and c.mu.Unlock in the Go code), a network request, or a backoff
   time.Sleep of the given number of milliseconds. -/
inductive Event where
  | lock
  | unlock
  | net (r : Request)
  | sleepMs (ms : Nat)
deriving DecidableEq

/- Outcome of one HTTP exchange: a transport-level error (the Go
   http.Client returning err != nil), or a response with a status code
   and a decoded body.  A body of type Option beta uses none for a body
   the Go json decoder fails to decode. -/
inductive TResult (alpha : Type) where
  | terr (msg : String)
  | resp (status : Nat) (body : alpha)
deriving DecidableEq

/- The device, one oracle per endpoint, indexed by the number of prior
   requests this run has sent to that endpoint. -/
structure Transport where
  status : Nat → TResult Unit
  library : Nat → Option String → TResult (Option (List LibraryItem))
  playlists : Nat → TResult (Option (List Playlist))
  createPlaylistEp : Nat → String → TResult (Option Playlist)
  addToPlaylistEp : Nat → String → String → TResult Unit
  triggerLibraryEp : Nat → String → TResult Unit
  triggerNextEp : Nat → TResult Unit
  triggerPreviousEp : Nat → TResult Unit
  clearLayerEp : Nat → String → TResult Unit

/- Per-endpoint request counters. -/
structure Counts where
  status : Nat
  library : Nat
  playlists : Nat
  createPl : Nat
  addPl : Nat
  trigLib : Nat
  trigNext : Nat
  trigPrev : Nat
  clearL : Nat
deriving DecidableEq

def Counts.zero : Counts := ⟨0, 0, 0, 0, 0, 0, 0, 0, 0⟩

/- Full run state: client fields, request counters, event trace. -/
structure S where
  cs : ClientState
  counts : Counts
  events : List Event
deriving DecidableEq

/- State-threading computations. -/
def M (alpha : Type) : Type := S → alpha × S

instance : Monad M where
  pure a := fun s => (a, s)
  bind m f := fun s => f (m s).1 (m s).2

theorem bind_run {alpha beta : Type} (m : M alpha) (f : alpha → M beta) (s : S) :
    (m >>= f) s = f (m s).1 (m s).2 := rfl

theorem pure_run {alpha : Type} (a : alpha) (s : S) : (pure a : M alpha) s = (a, s) := rfl

def getCS : M ClientState := fun s => (s.cs, s)

def modifyCS (f : ClientState → ClientState) : M Unit :=
  fun s => ((), { s with cs := f s.cs })

def lockMu : M Unit := fun s => ((), { s with events := s.events ++ [Event.lock] })

def unlockMu : M Unit := fun s => ((), { s with events := s.events ++ [Event.unlock] })

def sleepFor (ms : Nat) : M Unit :=
  fun s => ((), { s with events := s.events ++ [Event.sleepMs ms] })

/- State after one request to each endpoint. -/
def bumpStatus (s : S) : S :=
  { s with counts := { s.counts with status := s.counts.status + 1 },
           events := s.events ++ [Event.net Request.getStatus] }

def bumpLibrary (s : S) (query : Option String) : S :=
  { s with counts := { s.counts with library := s.counts.library + 1 },
           events := s.events ++ [Event.net (Request.getLibrary query)] }

def bumpPlaylists (s : S) : S :=
  { s with counts := { s.counts with playlists := s.counts.playlists + 1 },
           events := s.events ++ [Event.net Request.getPlaylists] }

def bumpCreate (s : S) (name : String) : S :=
  { s with counts := { s.counts with createPl := s.counts.createPl + 1 },
           events := s.events ++ [Event.net (Request.postPlaylists name)] }

def bumpAdd (s : S) (playlistUUID itemUUID : String) : S :=
  { s with counts := { s.counts with addPl := s.counts.addPl + 1 },
           events := s.events ++ [Event.net (Request.putPlaylistAdd playlistUUID itemUUID)] }

def bumpTrigLib (s : S) (uuid : String) : S :=
  { s with counts := { s.counts with trigLib := s.counts.trigLib + 1 },
           events := s.events ++ [Event.net (Request.getTriggerLibrary uuid)] }

def bumpTrigNext (s : S) : S :=
  { s with counts := { s.counts with trigNext := s.counts.trigNext + 1 },
           events := s.events ++ [Event.net Request.getTriggerNext] }

def bumpTrigPrev (s : S) : S :=
  { s with counts := { s.counts with trigPrev := s.counts.trigPrev + 1 },
           events := s.events ++ [Event.net Request.getTriggerPrevious] }

def bumpClear (s : S) (layer : String) : S :=
  { s with counts := { s.counts with clearL := s.counts.clearL + 1 },
           events := s.events ++ [Event.net (Request.getClearLayer layer)] }

def netStatus (tr : Transport) : M (TResult Unit) := fun s =>
  (tr.status s.counts.status, bumpStatus s)

def netLibrary (tr : Transport) (query : Option String) :
    M (TResult (Option (List LibraryItem))) := fun s =>
  (tr.library s.counts.library query, bumpLibrary s query)

def netPlaylists (tr : Transport) : M (TResult (Option (List Playlist))) := fun s =>
  (tr.playlists s.counts.playlists, bumpPlaylists s)

def netCreatePlaylist (tr : Transport) (name : String) :
    M (TResult (Option Playlist)) := fun s =>
  (tr.createPlaylistEp s.counts.createPl name, bumpCreate s name)

def netAddToPlaylist (tr : Transport) (playlistUUID itemUUID : String) :
    M (TResult Unit) := fun s =>
  (tr.addToPlaylistEp s.counts.addPl playlistUUID itemUUID, bumpAdd s playlistUUID itemUUID)

def netTriggerLibrary (tr : Transport) (uuid : String) : M (TResult Unit) := fun s =>
  (tr.triggerLibraryEp s.counts.trigLib uuid, bumpTrigLib s uuid)

def netTriggerNext (tr : Transport) : M (TResult Unit) := fun s =>
  (tr.triggerNextEp s.counts.trigNext, bumpTrigNext s)

def netTriggerPrevious (tr : Transport) : M (TResult Unit) := fun s =>
  (tr.triggerPreviousEp s.counts.trigPrev, bumpTrigPrev s)

def netClearLayer (tr : Transport) (layer : String) : M (TResult Unit) := fun s =>
  (tr.clearLayerEp s.counts.clearL layer, bumpClear s layer)

/- Go errors, one constructor per fmt.Errorf site in client.go.  Sites
   that wrap an inner error with %w keep the inner Err. -/
inductive Err where
  | notEnabled
  | notReachable (msg : String)
  | healthStatus (code : Nat)
  | fetchLibraryFailed (msg : String)
  | libraryStatus (code : Nat)
  | libraryDecode
  | searchLibraryFailed (msg : String)
  | searchStatus (code : Nat)
  | searchDecode
  | songNotFound (title : String)
  | fetchPlaylistsFailed (msg : String)
  | playlistsStatus (code : Nat)
  | playlistsDecode
  | createPlaylistFailed (msg : String)
  | createPlaylistStatus (code : Nat)
  | addToPlaylistFailed (msg : String)
  | addToPlaylistStatus (code : Nat)
  | triggerLibraryFailed (msg : String)
  | triggerLibraryStatus (code : Nat)
  | triggerNextFailed (msg : String)
  | triggerPreviousFailed (msg : String)
  | clearLayerFailed (msg : String)
  | titleRequired
  | songNotFoundInLibrary (title : String) (inner : Err)
  | getOrCreatePlaylistFailed (inner : Err)
  | addAfterRetriesFailed (inner : Err)
  | outOfFuel
deriving DecidableEq

instance {epsilon alpha : Type} [DecidableEq epsilon] [DecidableEq alpha] :
    DecidableEq (Except epsilon alpha) := fun x y =>
  match x, y with
  | .error a, .error b =>
    if h : a = b then .isTrue (by rw [h])
    else .isFalse (fun hc => h (Except.error.inj hc))
  | .error _, .ok _ => .isFalse (fun hc => Except.noConfusion hc)
  | .ok _, .error _ => .isFalse (fun hc => Except.noConfusion hc)
  | .ok a, .ok b =>
    if h : a = b then .isTrue (by rw [h])
    else .isFalse (fun hc => h (Except.ok.inj hc))

def isErr {alpha : Type} : Except Err alpha → Bool
  | .error _ => true
  | .ok _ => false

/- Response handling of healthCheckLocked, client.go lines 177-187:
   transport error, then non-200 check. -/
def probePure : TResult Unit → Option Err
  | .terr msg => some (.notReachable msg)
  | .resp code _ => if code ≠ 200 then some (.healthStatus code) else none

/- healthCheckLocked, client.go lines 176-188: one GET /v1/status. -/
def healthCheckLocked (tr : Transport) : M (Option Err) := do
  let r ← netStatus tr
  pure (probePure r)

/- The retry loop of Health, client.go lines 660-679: up to the given
   number of remaining attempts, sleeping 500ms before every attempt but
   the first, returning on the first success, and keeping the last error
   for the exhausted case. -/
def healthLoop (tr : Transport) (now : Nat) : Nat → Nat → Option Err → M (Option Err)
  | 0, _, lastErr => do
    modifyCS (fun c => { c with connected := false })
    unlockMu
    pure lastErr
  | remaining + 1, attempt, lastErr => do
    if attempt > 0 then sleepFor 500 else pure ()
    match ← healthCheckLocked tr with
    | some e => healthLoop tr now remaining (attempt + 1) (some e)
    | none => do
      modifyCS (fun c => { c with connected := true, lastCheck := now })
      unlockMu
      pure none

/- Health, client.go lines 650-680.  Takes the mutex, short-circuits
   when disabled (forcing connected to false), otherwise runs the
   3-attempt probe loop while still holding the mutex. -/
def Health (tr : Transport) (now : Nat) : M (Option Err) := do
  lockMu
  let cs ← getCS
  if !cs.enabled then do
    modifyCS (fun c => { c with connected := false })
    unlockMu
    pure (some .notEnabled)
  else
    healthLoop tr now 3 0 none

/- Reconfigure, client.go lines 143-166.  A nil config, a disabled
   config, or an empty host disables the integration with no network
   call and no error; otherwise the new endpoint is installed and a
   single healthCheckLocked probe is run under the mutex. -/
def Reconfigure (tr : Transport) (now : Nat) (config : Option Config) : M (Option Err) := do
  lockMu
  match config with
  | none => do
    modifyCS (fun c => { c with enabled := false, connected := false })
    unlockMu
    pure none
  | some cfg =>
    if !cfg.enabled || cfg.host = "" then do
      modifyCS (fun c => { c with enabled := false, connected := false })
      unlockMu
      pure none
    else do
      modifyCS (fun c => { c with config := some cfg,
                                  baseURL := "http://" ++ cfg.host ++ ":" ++ cfg.port,
                                  enabled := true })
      match ← healthCheckLocked tr with
      | none => modifyCS (fun c => { c with connected := true, lastCheck := now })
      | some _ => modifyCS (fun c => { c with connected := false })
      unlockMu
      pure none

/- One iteration of the goroutine body of StartPeriodicHealthCheck,
   client.go lines 200-208: on every tick the mutex is taken and
   healthCheckLocked runs, with no re-check of c.enabled. -/
def periodicTick (tr : Transport) (now : Nat) : M Unit := do
  lockMu
  match ← healthCheckLocked tr with
  | none => modifyCS (fun c => { c with connected := true, lastCheck := now })
  | some _ => modifyCS (fun c => { c with connected := false })
  unlockMu

/- The guard of StartPeriodicHealthCheck, client.go lines 192-194: the
   goroutine is spawned exactly when the client is enabled at call time. -/
def startPeriodicHealthCheckStarts (cs : ClientState) : Bool := cs.enabled

/- Response handling of GetLibrary, client.go lines 226-242. -/
def libraryPure : TResult (Option (List LibraryItem)) → Except Err (List LibraryItem)
  | .terr msg => .error (.fetchLibraryFailed msg)
  | .resp code body =>
    if code ≠ 200 then .error (.libraryStatus code)
    else
      match body with
      | none => .error .libraryDecode
      | some items => .ok items

/- GetLibrary, client.go lines 221-243. -/
def GetLibrary (tr : Transport) : M (Except Err (List LibraryItem)) := do
  let cs ← getCS
  if !cs.enabled then pure (.error .notEnabled)
  else do
    let r ← netLibrary tr none
    pure (libraryPure r)

/- Response handling of SearchLibrary, client.go lines 252-268. -/
def searchPure : TResult (Option (List LibraryItem)) → Except Err (List LibraryItem)
  | .terr msg => .error (.searchLibraryFailed msg)
  | .resp code body =>
    if code ≠ 200 then .error (.searchStatus code)
    else
      match body with
      | none => .error .searchDecode
      | some items => .ok items

/- SearchLibrary, client.go lines 246-269.  The url.QueryEscape step is
   abstracted away: the request carries the raw query string. -/
def SearchLibrary (tr : Transport) (query : String) : M (Except Err (List LibraryItem)) := do
  let cs ← getCS
  if !cs.enabled then pure (.error .notEnabled)
  else do
    let r ← netLibrary tr (some query)
    pure (searchPure r)

/- ASCII-level model of Go strings.ToLower: lowercase the letters A-Z. -/
def charLower (c : Char) : Char :=
  if 65 ≤ c.toNat ∧ c.toNat ≤ 90 then Char.ofNat (c.toNat + 32) else c

def goToLower (x : String) : String := String.mk (x.data.map charLower)

/- The whitespace set of Go strings.TrimSpace, at ASCII level. -/
def goSpace (c : Char) : Bool :=
  c = ' ' || c = '\t' || c = '\n' || c = '\x0b' || c = '\x0c' || c = '\r'

def goTrimSpace (x : String) : String :=
  String.mk (((x.data.dropWhile goSpace).reverse.dropWhile goSpace).reverse)

/- strings.ToLower composed with strings.TrimSpace, as used on both
   sides of the name comparisons in client.go lines 279-281 and 327-329. -/
def normalizeName (x : String) : String := goToLower (goTrimSpace x)

/- The matching logic of FindSongByTitle, client.go lines 278-291: first
   case-insensitive trimmed exact match, else first entry of a non-empty
   listing, else a song-not-found error. -/
def findSongPure (title : String) : Except Err (List LibraryItem) → Except Err LibraryItem
  | .error e => .error e
  | .ok items =>
    match items.find? (fun item => normalizeName item.id.name == normalizeName title) with
    | some item => .ok item
    | none =>
      match items with
      | item :: _ => .ok item
      | [] => .error (.songNotFound title)

/- FindSongByTitle, client.go lines 272-292. -/
def FindSongByTitle (tr : Transport) (title : String) : M (Except Err LibraryItem) := do
  let r ← SearchLibrary tr title
  pure (findSongPure title r)

/- Response handling of GetPlaylists, client.go lines 300-316. -/
def playlistsPure : TResult (Option (List Playlist)) → Except Err (List Playlist)
  | .terr msg => .error (.fetchPlaylistsFailed msg)
  | .resp code body =>
    if code ≠ 200 then .error (.playlistsStatus code)
    else
      match body with
      | none => .error .playlistsDecode
      | some playlists => .ok playlists

/- GetPlaylists, client.go lines 295-317. -/
def GetPlaylists (tr : Transport) : M (Except Err (List Playlist)) := do
  let cs ← getCS
  if !cs.enabled then pure (.error .notEnabled)
  else do
    let r ← netPlaylists tr
    pure (playlistsPure r)

/- Response handling of CreatePlaylist, client.go lines 347-364: the
   third outcome marks a 200 or 201 whose body the json decoder cannot
   decode, upon which the Go code re-enters FindOrCreatePlaylist. -/
inductive CreateOutcome where
  | failed (e : Err)
  | created (pl : Playlist)
  | bodyUndecodable
deriving DecidableEq

def createPure : TResult (Option Playlist) → CreateOutcome
  | .terr msg => .failed (.createPlaylistFailed msg)
  | .resp code body =>
    if code ≠ 200 ∧ code ≠ 201 then .failed (.createPlaylistStatus code)
    else
      match body with
      | some playlist => .created playlist
      | none => .bodyUndecodable

/- Body of CreatePlaylist, client.go lines 339-365, with the recursive
   re-listing call (line 361) abstracted into the relist argument. -/
def createPlaylistAux (tr : Transport) (name : String)
    (relist : M (Except Err Playlist)) : M (Except Err Playlist) := do
  let cs ← getCS
  if !cs.enabled then pure (.error .notEnabled)
  else do
    let r ← netCreatePlaylist tr name
    match createPure r with
    | .failed e => pure (.error e)
    | .created pl => pure (.ok pl)
    | .bodyUndecodable => relist

/- FindOrCreatePlaylist, client.go lines 320-336.  In the Go code this
   is mutually recursive with CreatePlaylist and carries no recursion
   bound; the embedding adds a fuel parameter, consumed once per
   FindOrCreatePlaylist entry, and answers outOfFuel when the unbounded
   Go recursion would still be running at that depth. -/
def FindOrCreatePlaylist (tr : Transport) (name : String) : Nat → M (Except Err Playlist)
  | 0 => pure (.error .outOfFuel)
  | fuel + 1 => do
    match ← GetPlaylists tr with
    | .error e => pure (.error e)
    | .ok playlists =>
      match playlists.find? (fun pl => normalizeName pl.id.name == normalizeName name) with
      | some pl => pure (.ok pl)
      | none => createPlaylistAux tr name (FindOrCreatePlaylist tr name fuel)

/- CreatePlaylist, client.go lines 339-365, as the entry point. -/
def CreatePlaylist (tr : Transport) (name : String) (fuel : Nat) : M (Except Err Playlist) :=
  createPlaylistAux tr name (FindOrCreatePlaylist tr name fuel)

/- Response handling of AddToPlaylist, client.go lines 394-405: failing
   on transport errors and on statuses other than 200, 201, 204. -/
def addPure : TResult Unit → Except Err Unit
  | .terr msg => .error (.addToPlaylistFailed msg)
  | .resp code _ =>
    if code ≠ 200 ∧ code ≠ 201 ∧ code ≠ 204 then .error (.addToPlaylistStatus code)
    else .ok ()

/- AddToPlaylist, client.go lines 369-406. -/
def AddToPlaylist (tr : Transport) (playlistUUID libraryItemUUID : String) :
    M (Except Err Unit) := do
  let cs ← getCS
  if !cs.enabled then pure (.error .notEnabled)
  else do
    let r ← netAddToPlaylist tr playlistUUID libraryItemUUID
    pure (addPure r)

/- Response handling of TriggerLibraryItem, client.go lines 421-432:
   failing on transport errors and on statuses other than 200, 204. -/
def triggerLibraryPure : TResult Unit → Except Err Unit
  | .terr msg => .error (.triggerLibraryFailed msg)
  | .resp code _ =>
    if code ≠ 200 ∧ code ≠ 204 then .error (.triggerLibraryStatus code)
    else .ok ()

/- TriggerLibraryItem, client.go lines 409-433. -/
def TriggerLibraryItem (tr : Transport) (uuid : String) : M (Except Err Unit) := do
  let cs ← getCS
  if !cs.enabled then pure (.error .notEnabled)
  else do
    let r ← netTriggerLibrary tr uuid
    pure (triggerLibraryPure r)

/- Response handling of TriggerNextSlide, client.go lines 441-447: the
   status code is never inspected; only a transport error fails. -/
def triggerNextPure : TResult Unit → Except Err Unit
  | .terr msg => .error (.triggerNextFailed msg)
  | .resp _ _ => .ok ()

/- TriggerNextSlide, client.go lines 436-448. -/
def TriggerNextSlide (tr : Transport) : M (Except Err Unit) := do
  let cs ← getCS
  if !cs.enabled then pure (.error .notEnabled)
  else do
    let r ← netTriggerNext tr
    pure (triggerNextPure r)

/- Response handling of TriggerPreviousSlide, client.go lines 456-462:
   no status check. -/
def triggerPreviousPure : TResult Unit → Except Err Unit
  | .terr msg => .error (.triggerPreviousFailed msg)
  | .resp _ _ => .ok ()

/- TriggerPreviousSlide, client.go lines 451-463. -/
def TriggerPreviousSlide (tr : Transport) : M (Except Err Unit) := do
  let cs ← getCS
  if !cs.enabled then pure (.error .notEnabled)
  else do
    let r ← netTriggerPrevious tr
    pure (triggerPreviousPure r)

/- Response handling of ClearLayer, client.go lines 478-484: no status
   check. -/
def clearLayerPure : TResult Unit → Except Err Unit
  | .terr msg => .error (.clearLayerFailed msg)
  | .resp _ _ => .ok ()

/- ClearLayer, client.go lines 466-485. -/
def ClearLayer (tr : Transport) (layer : String) : M (Except Err Unit) := do
  let cs ← getCS
  if !cs.enabled then pure (.error .notEnabled)
  else do
    let r ← netClearLayer tr layer
    pure (clearLayerPure r)

/- The retry pattern of SendToLiveQueue, client.go lines 607-615,
   621-629 and 635-643: three attempts, sleeping before every attempt
   but the first, returning the first success, otherwise the last
   attempt's error. -/
def retry3 {alpha : Type} (delayMs : Nat) (act : M (Except Err alpha)) :
    M (Except Err alpha) := do
  match ← act with
  | .ok a => pure (.ok a)
  | .error _ => do
    sleepFor delayMs
    match ← act with
    | .ok a => pure (.ok a)
    | .error _ => do
      sleepFor delayMs
      act

/- SendToLiveQueue, client.go lines 589-646.  The lyrics parameter is
   accepted and unused, exactly as in the Go code. -/
def SendToLiveQueue (tr : Transport) (fuel : Nat)
    (songTitle playlistName lyrics : String) : M (Except Err String) := do
  let cs ← getCS
  if !cs.enabled then pure (.error .notEnabled)
  else
    let playlistName := if playlistName = "" then "Live Queue" else playlistName
    if songTitle = "" then pure (.error .titleRequired)
    else
      match ← retry3 300 (FindSongByTitle tr songTitle) with
      | .error e => pure (.error (.songNotFoundInLibrary songTitle e))
      | .ok item =>
        match ← retry3 300 (FindOrCreatePlaylist tr playlistName fuel) with
        | .error e => pure (.error (.getOrCreatePlaylistFailed e))
        | .ok playlist =>
          match ← retry3 300 (AddToPlaylist tr playlist.id.uuid item.id.uuid) with
          | .error e => pure (.error (.addAfterRetriesFailed e))
          | .ok _ => pure (.ok item.id.uuid)

/- The network requests of a trace, in order. -/
def netReqs (l : List Event) : List Request :=
  l.filterMap (fun e => match e with | .net r => some r | _ => none)

/- True when some network request in the trace happens while the mutex
   is held; the first argument is the current lock depth. -/
def lockedNetAux : Nat → List Event → Bool
  | _, [] => false
  | d, Event.lock :: rest => lockedNetAux (d + 1) rest
  | d, Event.unlock :: rest => lockedNetAux (d - 1) rest
  | d, Event.net _ :: rest => decide (0 < d) || lockedNetAux d rest
  | d, Event.sleepMs _ :: rest => lockedNetAux d rest

def lockAcrossNet (l : List Event) : Bool := lockedNetAux 0 l

/- True when some backoff sleep in the trace happens while the mutex is
   held. -/
def lockedSleepAux : Nat → List Event → Bool
  | _, [] => false
  | d, Event.lock :: rest => lockedSleepAux (d + 1) rest
  | d, Event.unlock :: rest => lockedSleepAux (d - 1) rest
  | d, Event.net _ :: rest => lockedSleepAux d rest
  | d, Event.sleepMs _ :: rest => decide (0 < d) || lockedSleepAux d rest

def lockAcrossSleep (l : List Event) : Bool := lockedSleepAux 0 l

def nonLockEvent : Event → Bool
  | .lock => false
  | .unlock => false
  | _ => true

/- A computation only appends events to the trace, and every appended
   event satisfies p. -/
def Emits (p : Event → Bool) {alpha : Type} (m : M alpha) : Prop :=
  ∀ s : S, ∃ d : List Event, (m s).2.events = s.events ++ d ∧ d.all p = true

def anyEvent : Event → Bool := fun _ => true

/- Run equations: each operation applied to an enabled state reduces to
   its pure response handler on the oracle's answer, plus the request
   bookkeeping. -/

theorem healthCheckLocked_run (tr : Transport) (s : S) :
    healthCheckLocked tr s = (probePure (tr.status s.counts.status), bumpStatus s) := rfl

theorem GetLibrary_run (tr : Transport) (s : S) (h : s.cs.enabled = true) :
    GetLibrary tr s = (libraryPure (tr.library s.counts.library none), bumpLibrary s none) := by
  simp [GetLibrary, getCS, netLibrary, bind_run, pure_run, h]

theorem SearchLibrary_run (tr : Transport) (query : String) (s : S) (h : s.cs.enabled = true) :
    SearchLibrary tr query s =
      (searchPure (tr.library s.counts.library (some query)), bumpLibrary s (some query)) := by
  simp [SearchLibrary, getCS, netLibrary, bind_run, pure_run, h]

theorem FindSongByTitle_run (tr : Transport) (title : String) (s : S)
    (h : s.cs.enabled = true) :
    FindSongByTitle tr title s =
      (findSongPure title (searchPure (tr.library s.counts.library (some title))),
       bumpLibrary s (some title)) := by
  simp [FindSongByTitle, bind_run, pure_run, SearchLibrary_run tr title s h]

theorem GetPlaylists_run (tr : Transport) (s : S) (h : s.cs.enabled = true) :
    GetPlaylists tr s = (playlistsPure (tr.playlists s.counts.playlists), bumpPlaylists s) := by
  simp [GetPlaylists, getCS, netPlaylists, bind_run, pure_run, h]

theorem AddToPlaylist_run (tr : Transport) (u v : String) (s : S) (h : s.cs.enabled = true) :
    AddToPlaylist tr u v s = (addPure (tr.addToPlaylistEp s.counts.addPl u v), bumpAdd s u v) := by
  simp [AddToPlaylist, getCS, netAddToPlaylist, bind_run, pure_run, h]

/- Fixtures: a device that answers nothing, concrete client states. -/

def noTransport : Transport where
  status := fun _ => .terr "down"
  library := fun _ _ => .terr "down"
  playlists := fun _ => .terr "down"
  createPlaylistEp := fun _ _ => .terr "down"
  addToPlaylistEp := fun _ _ _ => .terr "down"
  triggerLibraryEp := fun _ _ => .terr "down"
  triggerNextEp := fun _ => .terr "down"
  triggerPreviousEp := fun _ => .terr "down"
  clearLayerEp := fun _ _ => .terr "down"

def csOn : ClientState := ⟨"http://h:1025", true, false, none, 0⟩

def csOff : ClientState := ⟨"http://h:1025", false, false, none, 0⟩

def stOn : S := ⟨csOn, Counts.zero, []⟩

def stOff : S := ⟨csOff, Counts.zero, []⟩

/- A device whose library listing is fixed, regardless of query. -/
def trListing (items : List LibraryItem) : Transport :=
  { noTransport with library := fun _ _ => .resp 200 (some items) }

/- A device with all Unit-bodied endpoints answering the given status. -/
def trUnitResp (code : Nat) : Transport :=
  { noTransport with
      status := fun _ => .resp code ()
      addToPlaylistEp := fun _ _ _ => .resp code ()
      triggerLibraryEp := fun _ _ => .resp code ()
      triggerNextEp := fun _ => .resp code ()
      triggerPreviousEp := fun _ => .resp code ()
      clearLayerEp := fun _ _ => .resp code () }

/- A device with all Unit-bodied endpoints failing at transport level. -/
def trUnitErr (msg : String) : Transport :=
  { noTransport with
      status := fun _ => .terr msg
      addToPlaylistEp := fun _ _ _ => .terr msg
      triggerLibraryEp := fun _ _ => .terr msg
      triggerNextEp := fun _ => .terr msg
      triggerPreviousEp := fun _ => .terr msg
      clearLayerEp := fun _ _ => .terr msg }

/-- Claim C5 (confirmed): for every title and every library listing the
device returns, FindSongByTitle yields the first entry whose name equals
the title under case-insensitive whitespace-trimmed comparison
(normalizeName); with no such entry and a non-empty listing it yields
the first entry; with an empty listing it yields the songNotFound
failure, not a transport error. -/
theorem c5_findSongByTitle (title : String) (items : List LibraryItem) :
    (FindSongByTitle (trListing items) title stOn).1 =
      match items.find? (fun item => normalizeName item.id.name == normalizeName title) with
      | some item => Except.ok item
      | none =>
        match items with
        | item :: _ => Except.ok item
        | [] => Except.error (Err.songNotFound title) := by
  rw [FindSongByTitle_run _ _ _ rfl]
  rfl

/-- Claim C9 (confirmed): on an enabled client, TriggerNextSlide,
TriggerPreviousSlide and ClearLayer succeed whenever an HTTP response
arrives, for every status code including 4xx/5xx, and fail only on a
transport-level error; TriggerLibraryItem instead fails on every status
code other than 200 and 204. -/
theorem c9_sideEffectOpsIgnoreStatus (code : Nat) (msg uuid layer : String) :
    ((TriggerNextSlide (trUnitResp code) stOn).1 = .ok () ∧
     (TriggerPreviousSlide (trUnitResp code) stOn).1 = .ok () ∧
     (ClearLayer (trUnitResp code) layer stOn).1 = .ok ()) ∧
    ((TriggerNextSlide (trUnitErr msg) stOn).1 = .error (.triggerNextFailed msg) ∧
     (TriggerPreviousSlide (trUnitErr msg) stOn).1 = .error (.triggerPreviousFailed msg) ∧
     (ClearLayer (trUnitErr msg) layer stOn).1 = .error (.clearLayerFailed msg)) ∧
    (code ≠ 200 → code ≠ 204 →
      (TriggerLibraryItem (trUnitResp code) uuid stOn).1 =
        .error (.triggerLibraryStatus code)) ∧
    ((TriggerLibraryItem (trUnitResp 200) uuid stOn).1 = .ok () ∧
     (TriggerLibraryItem (trUnitErr msg) uuid stOn).1 =
       .error (.triggerLibraryFailed msg)) := by
  refine ⟨⟨rfl, rfl, rfl⟩, ⟨rfl, rfl, rfl⟩, ?_, rfl, rfl⟩
  intro h1 h2
  simp [TriggerLibraryItem, trUnitResp, getCS, netTriggerLibrary, bind_run, pure_run,
    triggerLibraryPure, stOn, csOn, h1, h2]

theorem c9_sideEffectOpsIgnoreStatus_witness :
    (TriggerNextSlide (trUnitResp 500) stOn).1 = .ok () ∧
    (TriggerLibraryItem (trUnitResp 500) "u1" stOn).1 = .error (.triggerLibraryStatus 500) :=
  ⟨(c9_sideEffectOpsIgnoreStatus 500 "boom" "u1" "audio").1.1,
   (c9_sideEffectOpsIgnoreStatus 500 "boom" "u1" "audio").2.2.1
     (by decide) (by decide)⟩

/- A status endpoint that fails on the first two attempts and succeeds
   from the third on. -/
def trFailTwice : Transport :=
  { noTransport with status := fun n => if n < 2 then .terr "down" else .resp 200 () }

/- A status endpoint that always fails, with a distinct non-200 status
   per attempt so the last failure is recognizable. -/
def trAlwaysFail : Transport :=
  { noTransport with status := fun n => .resp (400 + n) () }

/- The probe loop of Health sends at most remaining status requests. -/
theorem healthLoop_status_le (tr : Transport) (now : Nat) :
    ∀ (remaining attempt : Nat) (lastErr : Option Err) (s : S),
      ((healthLoop tr now remaining attempt lastErr) s).2.counts.status ≤
        s.counts.status + remaining := by
  intro remaining
  induction remaining with
  | zero =>
    intro attempt lastErr s
    simp [healthLoop, modifyCS, unlockMu, bind_run, pure_run]
  | succ n ih =>
    intro attempt lastErr s
    rcases hp : probePure (tr.status s.counts.status) with _ | e <;>
      by_cases ha : 0 < attempt <;>
      simp only [healthLoop, ha, if_true, if_false, ite_true, ite_false] <;>
      simp only [bind_run, sleepFor, pure_run, healthCheckLocked_run, bumpStatus] <;>
      simp only [hp] <;>
      try simp [modifyCS, unlockMu, bind_run, pure_run]
    all_goals
      refine le_trans (ih (attempt + 1) (some e) _) ?_
      simp
      omega

/-- Claim C3 (confirmed): on an enabled client, Health performs at most
3 probe attempts and returns on the first success; with a transport that
fails twice then succeeds it returns success after exactly 3 attempts
and sets connected to true; with an always-failing transport it returns
the last attempt's failure after exactly 3 attempts and leaves connected
false. -/
theorem c3_healthProbeRetry :
    (∀ (tr : Transport) (now : Nat) (st : S), st.cs.enabled = true →
      (Health tr now st).2.counts.status ≤ st.counts.status + 3) ∧
    (∀ (tr : Transport) (now : Nat) (st : S), st.cs.enabled = true →
      probePure (tr.status st.counts.status) = none →
      (Health tr now st).1 = none ∧
      (Health tr now st).2.counts.status = st.counts.status + 1 ∧
      (Health tr now st).2.cs.connected = true) ∧
    ((Health trFailTwice 7 stOn).1 = none ∧
     (Health trFailTwice 7 stOn).2.counts.status = 3 ∧
     (Health trFailTwice 7 stOn).2.cs.connected = true) ∧
    ((Health trAlwaysFail 7 stOn).1 = some (.healthStatus 402) ∧
     (Health trAlwaysFail 7 stOn).2.counts.status = 3 ∧
     (Health trAlwaysFail 7 stOn).2.cs.connected = false) := by
  refine ⟨?_, ?_, ⟨rfl, rfl, rfl⟩, ⟨rfl, rfl, rfl⟩⟩
  · intro tr now st h
    have := healthLoop_status_le tr now 3 0 none
      { st with events := st.events ++ [Event.lock] }
    simp only [Health, bind_run, pure_run, lockMu, getCS, h, Bool.not_true,
      Bool.false_eq_true, if_false, ite_false]
    simpa using this
  · intro tr now st h hp
    simp [Health, bind_run, pure_run, lockMu, getCS, h, healthLoop,
      healthCheckLocked_run, hp, bumpStatus, modifyCS, unlockMu]

theorem c3_healthProbeRetry_witness :
    (Health noTransport 0 stOn).2.counts.status ≤ stOn.counts.status + 3 ∧
    (Health (trUnitResp 200) 0 stOn).1 = none :=
  ⟨c3_healthProbeRetry.1 noTransport 0 stOn rfl,
   (c3_healthProbeRetry.2.1 (trUnitResp 200) 0 stOn rfl rfl).1⟩

/- A status endpoint that fails on the first attempt only. -/
def trFailFirst : Transport :=
  { noTransport with status := fun n => if n = 0 then .terr "refused" else .resp 200 () }

def cfgValid : Config := ⟨"host", "1025", true, ""⟩

/-- Claim C4 counterexample: Reconfigure with a valid enabled config does
not run the retrying probe of section 4.2: against a device whose status
endpoint fails once and then succeeds, it issues exactly 1 status request
and publishes connected = false, although the 3-attempt retrying probe on
the very same device state (run here as Health immediately afterwards)
succeeds and sets connected = true.  Under the claim as stated, connected
would reflect the retrying probe and be true. -/
theorem c4_counterexample :
    ((Reconfigure trFailFirst 0 (some cfgValid) stOff).2.cs.connected = false ∧
     (Reconfigure trFailFirst 0 (some cfgValid) stOff).2.counts.status = 1) ∧
    ((Health trFailFirst 5 ((Reconfigure trFailFirst 0 (some cfgValid) stOff).2)).1 = none ∧
     (Health trFailFirst 5
        ((Reconfigure trFailFirst 0 (some cfgValid) stOff).2)).2.cs.connected = true) :=
  ⟨⟨rfl, rfl⟩, ⟨rfl, rfl⟩⟩

/-- Claim C4 (corrected): a none, disabled, or empty-host argument makes
Reconfigure set enabled and connected to false with no network request
and no error; a valid enabled argument installs the new endpoint and
runs a single synchronous probe attempt (one status request, with no
retry) before returning, so connected reflects that single attempt's
outcome against the new endpoint. -/
theorem c4_reconfigure_amended :
    (∀ (tr : Transport) (now : Nat) (st : S) (config : Option Config),
      (config = none ∨ ∃ cfg, config = some cfg ∧ (cfg.enabled = false ∨ cfg.host = "")) →
      (Reconfigure tr now config st).1 = none ∧
      (Reconfigure tr now config st).2.cs.enabled = false ∧
      (Reconfigure tr now config st).2.cs.connected = false ∧
      (Reconfigure tr now config st).2.counts = st.counts ∧
      netReqs (Reconfigure tr now config st).2.events = netReqs st.events) ∧
    (∀ (tr : Transport) (now : Nat) (st : S) (cfg : Config),
      cfg.enabled = true → cfg.host ≠ "" →
      (Reconfigure tr now (some cfg) st).1 = none ∧
      (Reconfigure tr now (some cfg) st).2.cs.enabled = true ∧
      (Reconfigure tr now (some cfg) st).2.cs.config = some cfg ∧
      (Reconfigure tr now (some cfg) st).2.cs.baseURL =
        "http://" ++ cfg.host ++ ":" ++ cfg.port ∧
      (Reconfigure tr now (some cfg) st).2.counts.status = st.counts.status + 1 ∧
      (Reconfigure tr now (some cfg) st).2.cs.connected =
        (probePure (tr.status st.counts.status)).isNone) := by
  constructor
  · intro tr now st config hdis
    rcases hdis with rfl | ⟨cfg, rfl, hcfg | hcfg⟩
    · simp [Reconfigure, lockMu, unlockMu, modifyCS, bind_run, pure_run, netReqs]
    · simp [Reconfigure, lockMu, unlockMu, modifyCS, bind_run, pure_run, hcfg, netReqs]
    · simp [Reconfigure, lockMu, unlockMu, modifyCS, bind_run, pure_run, hcfg, netReqs]
  · intro tr now st cfg h1 h2
    rcases hp : probePure (tr.status st.counts.status) with _ | e <;>
      simp [Reconfigure, lockMu, unlockMu, modifyCS, bind_run, pure_run, h1, h2,
        healthCheckLocked_run, bumpStatus, hp]

theorem c4_reconfigure_amended_witness :
    (Reconfigure noTransport 0 none stOn).2.cs.enabled = false ∧
    (Reconfigure noTransport 0 (some cfgValid) stOff).2.counts.status =
      stOff.counts.status + 1 :=
  ⟨(c4_reconfigure_amended.1 noTransport 0 stOn none (Or.inl rfl)).2.1,
   (c4_reconfigure_amended.2 noTransport 0 stOff cfgValid rfl
      (by decide)).2.2.2.2.1⟩

/- A device that accepts every playlist create with status 201 and an
   undecodable body, and whose playlist listing never contains the
   created playlist. -/
def trPhantom : Transport :=
  { noTransport with
      playlists := fun _ => .resp 200 (some [])
      createPlaylistEp := fun _ _ => .resp 201 none }

theorem bumpPlaylists_createPl (s : S) :
    (bumpPlaylists s).counts.createPl = s.counts.createPl := rfl

theorem bumpCreate_createPl (s : S) (nm : String) :
    (bumpCreate s nm).counts.createPl = s.counts.createPl + 1 := rfl

/-- Claim C10 (confirmed): FindOrCreatePlaylist and CreatePlaylist are
mutually recursive with no recursion bound; against a device that
accepts creates (success status, body the decoder cannot decode) but
never lists the created playlist, no recursion depth fuel suffices: for
every fuel both return the out-of-fuel marker, and each additional unit
of fuel makes the pair issue one more create request, so the Go
recursion, which has no fuel, never terminates on such a device. -/
theorem c10_findOrCreateUnbounded (fuel : Nat) :
    ∀ (st : S), st.cs.enabled = true →
      (FindOrCreatePlaylist trPhantom "Live Queue" fuel st).1 = .error .outOfFuel ∧
      (FindOrCreatePlaylist trPhantom "Live Queue" fuel st).2.counts.createPl =
        st.counts.createPl + fuel ∧
      (CreatePlaylist trPhantom "Live Queue" fuel st).1 = .error .outOfFuel ∧
      (CreatePlaylist trPhantom "Live Queue" fuel st).2.counts.createPl =
        st.counts.createPl + fuel + 1 := by
  induction fuel with
  | zero =>
    intro st h
    refine ⟨rfl, rfl, ?_, ?_⟩ <;>
      simp [CreatePlaylist, createPlaylistAux, getCS, netCreatePlaylist, bind_run,
        pure_run, h, createPure, trPhantom, noTransport, FindOrCreatePlaylist,
        bumpCreate]
  | succ n ih =>
    intro st h
    have hpl : ∀ k : Nat, playlistsPure (trPhantom.playlists k) = .ok [] := fun _ => rfl
    have hcr : ∀ k : Nat, createPure (trPhantom.createPlaylistEp k "Live Queue") =
        .bodyUndecodable := fun _ => rfl
    have key : ∀ (st' : S), st'.cs.enabled = true →
        (FindOrCreatePlaylist trPhantom "Live Queue" (n + 1) st').1 = .error .outOfFuel ∧
        (FindOrCreatePlaylist trPhantom "Live Queue" (n + 1) st').2.counts.createPl =
          st'.counts.createPl + (n + 1) := by
      intro st' h'
      have hC := ih (bumpPlaylists st') h'
      simp only [CreatePlaylist] at hC
      rw [FindOrCreatePlaylist]
      simp only [bind_run, GetPlaylists_run trPhantom st' h', hpl, List.find?_nil]
      refine ⟨hC.2.2.1, ?_⟩
      have hD := hC.2.2.2
      rw [bumpPlaylists_createPl] at hD
      omega
    refine ⟨(key st h).1, (key st h).2, ?_, ?_⟩
    · simp only [CreatePlaylist, createPlaylistAux, bind_run, pure_run, getCS,
        netCreatePlaylist, hcr, h, Bool.not_true, Bool.false_eq_true, if_false,
        ite_false]
      exact (key (bumpCreate st "Live Queue") h).1
    · simp only [CreatePlaylist, createPlaylistAux, bind_run, pure_run, getCS,
        netCreatePlaylist, hcr, h, Bool.not_true, Bool.false_eq_true, if_false,
        ite_false]
      have hB := (key (bumpCreate st "Live Queue") h).2
      rw [bumpCreate_createPl] at hB
      omega

theorem c10_findOrCreateUnbounded_witness :
    (FindOrCreatePlaylist trPhantom "Live Queue" 4 stOn).1 = .error .outOfFuel ∧
    (CreatePlaylist trPhantom "Live Queue" 4 stOn).1 = .error .outOfFuel :=
  ⟨(c10_findOrCreateUnbounded 4 stOn rfl).1, (c10_findOrCreateUnbounded 4 stOn rfl).2.2.1⟩

/- A device whose playlist listing is fixed; playlist creation fails at
   transport level, which is irrelevant to whether a create request is
   issued at all. -/
def trPlaylists (pls : List Playlist) : Transport :=
  { noTransport with playlists := fun _ => .resp 200 (some pls) }

theorem bumpPlaylists_cs (s : S) : (bumpPlaylists s).cs = s.cs := rfl

/-- Claim C6 (confirmed): for every name and playlist listing the device
returns, when the listing contains a playlist matching the requested
name under case-insensitive whitespace-trimmed comparison,
FindOrCreatePlaylist returns the first such playlist and its whole run
consists of the single listing request, with no create request; when no
such playlist exists, a create request for that name is issued. -/
theorem c6_findOrCreatePlaylist (name : String) (pls : List Playlist) (fuel : Nat)
    (st : S) (h : st.cs.enabled = true) (hev : st.events = []) :
    (∀ pl, pls.find? (fun q => normalizeName q.id.name == normalizeName name) = some pl →
      (FindOrCreatePlaylist (trPlaylists pls) name (fuel + 1) st).1 = .ok pl ∧
      (FindOrCreatePlaylist (trPlaylists pls) name (fuel + 1) st).2.events =
        [Event.net Request.getPlaylists]) ∧
    (pls.find? (fun q => normalizeName q.id.name == normalizeName name) = none →
      Event.net (Request.postPlaylists name) ∈
        (FindOrCreatePlaylist (trPlaylists pls) name (fuel + 1) st).2.events) := by
  have hpl : playlistsPure ((trPlaylists pls).playlists st.counts.playlists) = .ok pls := rfl
  constructor
  · intro pl hfind
    rw [FindOrCreatePlaylist]
    simp only [bind_run, GetPlaylists_run (trPlaylists pls) st h, hpl, hfind]
    simp [pure_run, bumpPlaylists, hev]
  · intro hfind
    rw [FindOrCreatePlaylist]
    simp only [bind_run, GetPlaylists_run (trPlaylists pls) st h, hpl, hfind]
    have hcp : ∀ k : Nat, createPure ((trPlaylists pls).createPlaylistEp k name) =
        .failed (.createPlaylistFailed "down") := fun _ => rfl
    simp only [createPlaylistAux, bind_run, pure_run, getCS, netCreatePlaylist,
      bumpPlaylists_cs, h, Bool.not_true, Bool.false_eq_true, if_false, ite_false, hcp]
    simp [bumpCreate, bumpPlaylists, hev]

def plLive : Playlist := ⟨⟨"pl-1", "live queue", "playlist"⟩, []⟩

theorem c6_findOrCreatePlaylist_witness :
    (FindOrCreatePlaylist (trPlaylists [plLive]) "Live Queue" 3 stOn).1 = .ok plLive ∧
    Event.net (Request.postPlaylists "Live Queue") ∈
      (FindOrCreatePlaylist (trPlaylists []) "Live Queue" 3 stOn).2.events :=
  ⟨((c6_findOrCreatePlaylist "Live Queue" [plLive] 2 stOn rfl rfl).1 plLive
      (by decide)).1,
   (c6_findOrCreatePlaylist "Live Queue" [] 2 stOn rfl rfl).2 rfl⟩

/-- Claim C1 (corrected): in a state with enabled = false, every public
operation (GetLibrary, SearchLibrary, GetPlaylists, CreatePlaylist,
AddToPlaylist, TriggerLibraryItem, TriggerNextSlide,
TriggerPreviousSlide, ClearLayer, SendToLiveQueue, Health) fails with
the not-enabled error and issues no network request, and
StartPeriodicHealthCheck spawns no loop; the periodic loop, however,
checks enabled only when it is started: each tick of a running loop
issues a status probe unconditionally, even when enabled = false. -/
theorem c1_disabledShortCircuit_amended :
    ∀ (tr : Transport) (st : S) (now fuel : Nat) (q uuid u2 layer title plname lyr : String),
      st.cs.enabled = false →
      (GetLibrary tr st = (.error .notEnabled, st) ∧
       SearchLibrary tr q st = (.error .notEnabled, st) ∧
       GetPlaylists tr st = (.error .notEnabled, st) ∧
       CreatePlaylist tr plname fuel st = (.error .notEnabled, st) ∧
       AddToPlaylist tr uuid u2 st = (.error .notEnabled, st) ∧
       TriggerLibraryItem tr uuid st = (.error .notEnabled, st) ∧
       TriggerNextSlide tr st = (.error .notEnabled, st) ∧
       TriggerPreviousSlide tr st = (.error .notEnabled, st) ∧
       ClearLayer tr layer st = (.error .notEnabled, st) ∧
       SendToLiveQueue tr fuel title plname lyr st = (.error .notEnabled, st)) ∧
      ((Health tr now st).1 = some .notEnabled ∧
       (Health tr now st).2.cs.connected = false ∧
       (Health tr now st).2.counts = st.counts ∧
       netReqs (Health tr now st).2.events = netReqs st.events) ∧
      startPeriodicHealthCheckStarts st.cs = false ∧
      (periodicTick tr now st).2.counts.status = st.counts.status + 1 := by
  intro tr st now fuel q uuid u2 layer title plname lyr h
  refine ⟨⟨?_, ?_, ?_, ?_, ?_, ?_, ?_, ?_, ?_, ?_⟩, ⟨?_, ?_, ?_, ?_⟩, ?_, ?_⟩
  · simp [GetLibrary, getCS, bind_run, pure_run, h]
  · simp [SearchLibrary, getCS, bind_run, pure_run, h]
  · simp [GetPlaylists, getCS, bind_run, pure_run, h]
  · simp [CreatePlaylist, createPlaylistAux, getCS, bind_run, pure_run, h]
  · simp [AddToPlaylist, getCS, bind_run, pure_run, h]
  · simp [TriggerLibraryItem, getCS, bind_run, pure_run, h]
  · simp [TriggerNextSlide, getCS, bind_run, pure_run, h]
  · simp [TriggerPreviousSlide, getCS, bind_run, pure_run, h]
  · simp [ClearLayer, getCS, bind_run, pure_run, h]
  · simp [SendToLiveQueue, getCS, bind_run, pure_run, h]
  · simp [Health, lockMu, getCS, modifyCS, unlockMu, bind_run, pure_run, h]
  · simp [Health, lockMu, getCS, modifyCS, unlockMu, bind_run, pure_run, h]
  · simp [Health, lockMu, getCS, modifyCS, unlockMu, bind_run, pure_run, h]
  · simp [Health, lockMu, getCS, modifyCS, unlockMu, bind_run, pure_run, h, netReqs]
  · simpa [startPeriodicHealthCheckStarts] using h
  · rcases hp : probePure (tr.status st.counts.status) with _ | e <;>
      simp [periodicTick, lockMu, unlockMu, modifyCS, bind_run, pure_run,
        healthCheckLocked_run, bumpStatus, hp]

theorem c1_disabledShortCircuit_amended_witness :
    GetLibrary noTransport stOff = (.error .notEnabled, stOff) ∧
    (Health noTransport 0 stOff).1 = some .notEnabled :=
  ⟨(c1_disabledShortCircuit_amended noTransport stOff 0 1 "q" "u" "v" "audio" "t" "p"
      "l" rfl).1.1,
   (c1_disabledShortCircuit_amended noTransport stOff 0 1 "q" "u" "v" "audio" "t" "p"
      "l" rfl).2.1.1⟩

/- A device whose status endpoint always answers 200. -/
def trUp : Transport := { noTransport with status := fun _ => .resp 200 () }

/- The state reached by disabling a running enabled client: Reconfigure
   with none from the enabled state. -/
def stAfterDisable : S := (Reconfigure trUp 0 none stOn).2

/-- Claim C1 counterexample: the claim also covers the periodic
health-check loop, but a tick of a loop started while the client was
enabled (startPeriodicHealthCheckStarts holds at stOn) and then
disabled via Reconfigure none does not short-circuit: from the
disabled state it issues a status request and, on a 200 answer, sets
connected = true while enabled is still false, breaching the claimed
invariant that enabled = false implies connected = false and no
network call. -/
theorem c1_counterexample :
    startPeriodicHealthCheckStarts stOn.cs = true ∧
    stAfterDisable.cs.enabled = false ∧
    stAfterDisable.cs.connected = false ∧
    (periodicTick trUp 1 stAfterDisable).2.counts.status =
      stAfterDisable.counts.status + 1 ∧
    netReqs (periodicTick trUp 1 stAfterDisable).2.events =
      netReqs stAfterDisable.events ++ [Request.getStatus] ∧
    (periodicTick trUp 1 stAfterDisable).2.cs.enabled = false ∧
    (periodicTick trUp 1 stAfterDisable).2.cs.connected = true :=
  ⟨rfl, rfl, rfl, rfl, rfl, rfl, rfl⟩

/- Compositional facts about Emits. -/

theorem emits_pure {p : Event → Bool} {alpha : Type} (a : alpha) : Emits p (pure a) :=
  fun s => ⟨[], by simp [pure_run], rfl⟩

theorem emits_bind {p : Event → Bool} {alpha beta : Type} {m : M alpha}
    {f : alpha → M beta} (hm : Emits p m) (hf : ∀ a, Emits p (f a)) :
    Emits p (m >>= f) := by
  intro s
  obtain ⟨d1, h1, h1a⟩ := hm s
  obtain ⟨d2, h2, h2a⟩ := hf (m s).1 (m s).2
  refine ⟨d1 ++ d2, ?_, ?_⟩
  · rw [bind_run, h2, h1, List.append_assoc]
  · simp [List.all_append, h1a, h2a]

theorem emits_getCS {p : Event → Bool} : Emits p getCS :=
  fun s => ⟨[], by simp [getCS], rfl⟩

theorem emits_modifyCS {p : Event → Bool} (f : ClientState → ClientState) :
    Emits p (modifyCS f) :=
  fun s => ⟨[], by simp [modifyCS], rfl⟩

theorem emits_lockMu {p : Event → Bool} (hp : p Event.lock = true) : Emits p lockMu :=
  fun s => ⟨[Event.lock], rfl, by simp [hp]⟩

theorem emits_unlockMu {p : Event → Bool} (hp : p Event.unlock = true) : Emits p unlockMu :=
  fun s => ⟨[Event.unlock], rfl, by simp [hp]⟩

theorem emits_sleepFor {p : Event → Bool} {ms : Nat} (hp : p (Event.sleepMs ms) = true) :
    Emits p (sleepFor ms) :=
  fun s => ⟨[Event.sleepMs ms], rfl, by simp [hp]⟩

theorem emits_netStatus {p : Event → Bool} (hp : ∀ r, p (Event.net r) = true)
    (tr : Transport) : Emits p (netStatus tr) :=
  fun s => ⟨[Event.net Request.getStatus], rfl, by simp [hp]⟩

theorem emits_netLibrary {p : Event → Bool} (hp : ∀ r, p (Event.net r) = true)
    (tr : Transport) (q : Option String) : Emits p (netLibrary tr q) :=
  fun s => ⟨[Event.net (Request.getLibrary q)], rfl, by simp [hp]⟩

theorem emits_netPlaylists {p : Event → Bool} (hp : ∀ r, p (Event.net r) = true)
    (tr : Transport) : Emits p (netPlaylists tr) :=
  fun s => ⟨[Event.net Request.getPlaylists], rfl, by simp [hp]⟩

theorem emits_netCreatePlaylist {p : Event → Bool} (hp : ∀ r, p (Event.net r) = true)
    (tr : Transport) (nm : String) : Emits p (netCreatePlaylist tr nm) :=
  fun s => ⟨[Event.net (Request.postPlaylists nm)], rfl, by simp [hp]⟩

theorem emits_netAddToPlaylist {p : Event → Bool} (hp : ∀ r, p (Event.net r) = true)
    (tr : Transport) (u v : String) : Emits p (netAddToPlaylist tr u v) :=
  fun s => ⟨[Event.net (Request.putPlaylistAdd u v)], rfl, by simp [hp]⟩

theorem emits_netTriggerLibrary {p : Event → Bool} (hp : ∀ r, p (Event.net r) = true)
    (tr : Transport) (u : String) : Emits p (netTriggerLibrary tr u) :=
  fun s => ⟨[Event.net (Request.getTriggerLibrary u)], rfl, by simp [hp]⟩

theorem emits_netTriggerNext {p : Event → Bool} (hp : ∀ r, p (Event.net r) = true)
    (tr : Transport) : Emits p (netTriggerNext tr) :=
  fun s => ⟨[Event.net Request.getTriggerNext], rfl, by simp [hp]⟩

theorem emits_netTriggerPrevious {p : Event → Bool} (hp : ∀ r, p (Event.net r) = true)
    (tr : Transport) : Emits p (netTriggerPrevious tr) :=
  fun s => ⟨[Event.net Request.getTriggerPrevious], rfl, by simp [hp]⟩

theorem emits_netClearLayer {p : Event → Bool} (hp : ∀ r, p (Event.net r) = true)
    (tr : Transport) (l : String) : Emits p (netClearLayer tr l) :=
  fun s => ⟨[Event.net (Request.getClearLayer l)], rfl, by simp [hp]⟩

theorem emits_GetLibrary {p : Event → Bool} (hp : ∀ r, p (Event.net r) = true)
    (tr : Transport) : Emits p (GetLibrary tr) := by
  unfold GetLibrary
  refine emits_bind emits_getCS ?_
  intro cs
  split
  · exact emits_pure _
  · exact emits_bind (emits_netLibrary hp tr none) (fun r => emits_pure _)

theorem emits_SearchLibrary {p : Event → Bool} (hp : ∀ r, p (Event.net r) = true)
    (tr : Transport) (q : String) : Emits p (SearchLibrary tr q) := by
  unfold SearchLibrary
  refine emits_bind emits_getCS ?_
  intro cs
  split
  · exact emits_pure _
  · exact emits_bind (emits_netLibrary hp tr (some q)) (fun r => emits_pure _)

theorem emits_FindSongByTitle {p : Event → Bool} (hp : ∀ r, p (Event.net r) = true)
    (tr : Transport) (t : String) : Emits p (FindSongByTitle tr t) := by
  unfold FindSongByTitle
  exact emits_bind (emits_SearchLibrary hp tr t) (fun r => emits_pure _)

theorem emits_GetPlaylists {p : Event → Bool} (hp : ∀ r, p (Event.net r) = true)
    (tr : Transport) : Emits p (GetPlaylists tr) := by
  unfold GetPlaylists
  refine emits_bind emits_getCS ?_
  intro cs
  split
  · exact emits_pure _
  · exact emits_bind (emits_netPlaylists hp tr) (fun r => emits_pure _)

theorem emits_createPlaylistAux {p : Event → Bool} (hp : ∀ r, p (Event.net r) = true)
    (tr : Transport) (nm : String) {relist : M (Except Err Playlist)}
    (hrelist : Emits p relist) : Emits p (createPlaylistAux tr nm relist) := by
  unfold createPlaylistAux
  refine emits_bind emits_getCS ?_
  intro cs
  split
  · exact emits_pure _
  · refine emits_bind (emits_netCreatePlaylist hp tr nm) ?_
    intro r
    split
    · exact emits_pure _
    · exact emits_pure _
    · exact hrelist

theorem emits_FindOrCreatePlaylist {p : Event → Bool} (hp : ∀ r, p (Event.net r) = true)
    (tr : Transport) (nm : String) :
    ∀ fuel, Emits p (FindOrCreatePlaylist tr nm fuel) := by
  intro fuel
  induction fuel with
  | zero => exact emits_pure _
  | succ n ih =>
    rw [FindOrCreatePlaylist]
    refine emits_bind (emits_GetPlaylists hp tr) ?_
    intro r
    split
    · exact emits_pure _
    · split
      · exact emits_pure _
      · exact emits_createPlaylistAux hp tr nm ih

theorem emits_CreatePlaylist {p : Event → Bool} (hp : ∀ r, p (Event.net r) = true)
    (tr : Transport) (nm : String) (fuel : Nat) : Emits p (CreatePlaylist tr nm fuel) :=
  emits_createPlaylistAux hp tr nm (emits_FindOrCreatePlaylist hp tr nm fuel)

theorem emits_AddToPlaylist {p : Event → Bool} (hp : ∀ r, p (Event.net r) = true)
    (tr : Transport) (u v : String) : Emits p (AddToPlaylist tr u v) := by
  unfold AddToPlaylist
  refine emits_bind emits_getCS ?_
  intro cs
  split
  · exact emits_pure _
  · exact emits_bind (emits_netAddToPlaylist hp tr u v) (fun r => emits_pure _)

theorem emits_TriggerLibraryItem {p : Event → Bool} (hp : ∀ r, p (Event.net r) = true)
    (tr : Transport) (u : String) : Emits p (TriggerLibraryItem tr u) := by
  unfold TriggerLibraryItem
  refine emits_bind emits_getCS ?_
  intro cs
  split
  · exact emits_pure _
  · exact emits_bind (emits_netTriggerLibrary hp tr u) (fun r => emits_pure _)

theorem emits_TriggerNextSlide {p : Event → Bool} (hp : ∀ r, p (Event.net r) = true)
    (tr : Transport) : Emits p (TriggerNextSlide tr) := by
  unfold TriggerNextSlide
  refine emits_bind emits_getCS ?_
  intro cs
  split
  · exact emits_pure _
  · exact emits_bind (emits_netTriggerNext hp tr) (fun r => emits_pure _)

theorem emits_TriggerPreviousSlide {p : Event → Bool} (hp : ∀ r, p (Event.net r) = true)
    (tr : Transport) : Emits p (TriggerPreviousSlide tr) := by
  unfold TriggerPreviousSlide
  refine emits_bind emits_getCS ?_
  intro cs
  split
  · exact emits_pure _
  · exact emits_bind (emits_netTriggerPrevious hp tr) (fun r => emits_pure _)

theorem emits_ClearLayer {p : Event → Bool} (hp : ∀ r, p (Event.net r) = true)
    (tr : Transport) (l : String) : Emits p (ClearLayer tr l) := by
  unfold ClearLayer
  refine emits_bind emits_getCS ?_
  intro cs
  split
  · exact emits_pure _
  · exact emits_bind (emits_netClearLayer hp tr l) (fun r => emits_pure _)

theorem emits_retry3 {p : Event → Bool} (hs : ∀ n, p (Event.sleepMs n) = true)
    {alpha : Type} {act : M (Except Err alpha)} (ha : Emits p act) (d : Nat) :
    Emits p (retry3 d act) := by
  unfold retry3
  refine emits_bind ha ?_
  intro r
  split
  · exact emits_pure _
  · refine emits_bind (emits_sleepFor (hs d)) ?_
    intro u
    refine emits_bind ha ?_
    intro r2
    split
    · exact emits_pure _
    · exact emits_bind (emits_sleepFor (hs d)) (fun u2 => ha)

theorem emits_SendToLiveQueue {p : Event → Bool} (hp : ∀ r, p (Event.net r) = true)
    (hs : ∀ n, p (Event.sleepMs n) = true) (tr : Transport) (fuel : Nat)
    (a b c : String) : Emits p (SendToLiveQueue tr fuel a b c) := by
  unfold SendToLiveQueue
  refine emits_bind emits_getCS ?_
  intro cs
  split
  · exact emits_pure _
  · split
    all_goals
      dsimp only
      split
      · exact emits_pure _
      · refine emits_bind (emits_retry3 hs (emits_FindSongByTitle hp tr a) 300) ?_
        intro r
        split
        · exact emits_pure _
        · refine emits_bind
            (emits_retry3 hs (emits_FindOrCreatePlaylist hp tr _ fuel) 300) ?_
          intro r2
          split
          · exact emits_pure _
          · refine emits_bind (emits_retry3 hs (emits_AddToPlaylist hp tr _ _) 300) ?_
            intro r3
            split
            · exact emits_pure _
            · exact emits_pure _

theorem emits_any_healthCheckLocked (tr : Transport) :
    Emits anyEvent (healthCheckLocked tr) := by
  unfold healthCheckLocked
  exact emits_bind (emits_netStatus (fun _ => rfl) tr) (fun r => emits_pure _)

theorem emits_any_healthLoop (tr : Transport) (now : Nat) :
    ∀ (remaining attempt : Nat) (lastErr : Option Err),
      Emits anyEvent (healthLoop tr now remaining attempt lastErr) := by
  intro remaining
  induction remaining with
  | zero =>
    intro attempt lastErr
    exact emits_bind (emits_modifyCS _)
      (fun u => emits_bind (emits_unlockMu rfl) (fun u2 => emits_pure _))
  | succ n ih =>
    intro attempt lastErr
    rw [healthLoop]
    split
    all_goals
      refine emits_bind ?_ ?_
      · first
        | exact emits_sleepFor rfl
        | exact emits_pure _
      · intro u
        refine emits_bind (emits_any_healthCheckLocked tr) ?_
        intro r
        split
        · exact ih _ _
        · exact emits_bind (emits_modifyCS _)
            (fun u2 => emits_bind (emits_unlockMu rfl) (fun u3 => emits_pure _))

/- The trace of a probe-loop entry with attempt counter 0 begins with the
   status request, whatever the transport answers afterwards. -/
theorem healthLoop_events_shape (tr : Transport) (now n : Nat) (lastErr : Option Err)
    (s : S) :
    ∃ rest, (healthLoop tr now (n + 1) 0 lastErr s).2.events =
      s.events ++ Event.net Request.getStatus :: rest := by
  rw [healthLoop]
  rcases hp : probePure (tr.status s.counts.status) with _ | e
  · exact ⟨[Event.unlock], by
      simp [hp, modifyCS, unlockMu, bind_run, pure_run, healthCheckLocked_run, bumpStatus]⟩
  · obtain ⟨d, hd, hd2⟩ := emits_any_healthLoop tr now n 1 (some e) (bumpStatus s)
    refine ⟨d, ?_⟩
    simp only [bind_run, pure_run, healthCheckLocked_run, gt_iff_lt, Nat.lt_irrefl,
      if_false, ite_false, hp]
    simp only [bumpStatus] at hd
    simp [bumpStatus, hd]

/- The trace of Health on an enabled state begins with the mutex acquire
   immediately followed by the status request: the probe runs under the
   lock. -/
theorem health_events_shape (tr : Transport) (now : Nat) (st : S)
    (h : st.cs.enabled = true) :
    ∃ rest, (Health tr now st).2.events =
      st.events ++ Event.lock :: Event.net Request.getStatus :: rest := by
  have h3 : Health tr now st =
      healthLoop tr now 3 0 none { st with events := st.events ++ [Event.lock] } := by
    simp [Health, bind_run, lockMu, getCS, h]
  obtain ⟨rest, hr⟩ := healthLoop_events_shape tr now 2 none
    { st with events := st.events ++ [Event.lock] }
  refine ⟨rest, ?_⟩
  rw [h3]
  rw [show (3 : Nat) = 2 + 1 from rfl]
  rw [hr]
  simp

/- Same for every tick of the periodic loop. -/
theorem tick_events_shape (tr : Transport) (now : Nat) (st : S) :
    ∃ rest, (periodicTick tr now st).2.events =
      st.events ++ Event.lock :: Event.net Request.getStatus :: rest := by
  rcases hp : probePure (tr.status st.counts.status) with _ | e <;>
    exact ⟨[Event.unlock], by
      simp [periodicTick, lockMu, unlockMu, modifyCS, bind_run, pure_run,
        healthCheckLocked_run, bumpStatus, hp]⟩

/- Same for Reconfigure with a valid enabled config. -/
theorem reconf_events_shape (tr : Transport) (now : Nat) (st : S) (cfg : Config)
    (h1 : cfg.enabled = true) (h2 : cfg.host ≠ "") :
    ∃ rest, (Reconfigure tr now (some cfg) st).2.events =
      st.events ++ Event.lock :: Event.net Request.getStatus :: rest := by
  rcases hp : probePure (tr.status st.counts.status) with _ | e <;>
    exact ⟨[Event.unlock], by
      simp [Reconfigure, lockMu, unlockMu, modifyCS, bind_run, pure_run,
        healthCheckLocked_run, bumpStatus, h1, h2, hp]⟩

theorem lockAcrossNet_prefix (r : Request) (rest : List Event) :
    lockAcrossNet (Event.lock :: Event.net r :: rest) = true := by
  simp [lockAcrossNet, lockedNetAux]

/-- Claim C2 counterexample: the mutex is held across network calls and
across retry backoff sleeps: on an enabled client with an unreachable
device, the whole trace of Health contains status requests and 500ms
sleeps at lock depth 1, and the same holds for the probe request of
Reconfigure with a valid config and of every periodic tick. -/
theorem c2_counterexample :
    lockAcrossNet ((Health noTransport 0 stOn).2.events) = true ∧
    lockAcrossSleep ((Health noTransport 0 stOn).2.events) = true ∧
    lockAcrossNet ((Reconfigure noTransport 0 (some cfgValid) stOff).2.events) = true ∧
    lockAcrossNet ((periodicTick noTransport 0 stOn).2.events) = true :=
  ⟨rfl, rfl, rfl, rfl⟩

/-- Claim C2 (corrected): the library and playlist lookups, the item
mutations and the composite queue workflow never touch the mutex at all
(their traces contain only network and sleep events), so their network
I/O happens outside the lock; but the probe operations do not follow
the claimed rule: Health, every periodic tick, and Reconfigure with a
valid config each hold the mutex across the probe network call, and
Health holds it across its retry backoff sleeps as well. -/
theorem c2_lockDiscipline_amended :
    (∀ tr, Emits nonLockEvent (GetLibrary tr)) ∧
    (∀ tr q, Emits nonLockEvent (SearchLibrary tr q)) ∧
    (∀ tr t, Emits nonLockEvent (FindSongByTitle tr t)) ∧
    (∀ tr, Emits nonLockEvent (GetPlaylists tr)) ∧
    (∀ tr nm fuel, Emits nonLockEvent (FindOrCreatePlaylist tr nm fuel)) ∧
    (∀ tr nm fuel, Emits nonLockEvent (CreatePlaylist tr nm fuel)) ∧
    (∀ tr u v, Emits nonLockEvent (AddToPlaylist tr u v)) ∧
    (∀ tr u, Emits nonLockEvent (TriggerLibraryItem tr u)) ∧
    (∀ tr, Emits nonLockEvent (TriggerNextSlide tr)) ∧
    (∀ tr, Emits nonLockEvent (TriggerPreviousSlide tr)) ∧
    (∀ tr l, Emits nonLockEvent (ClearLayer tr l)) ∧
    (∀ tr fuel a b c, Emits nonLockEvent (SendToLiveQueue tr fuel a b c)) ∧
    (∀ tr now st, st.cs.enabled = true →
      lockAcrossNet ((Health tr now st).2.events.drop st.events.length) = true) ∧
    (∀ tr now st,
      lockAcrossNet ((periodicTick tr now st).2.events.drop st.events.length) = true) ∧
    (∀ tr now st cfg, cfg.enabled = true → cfg.host ≠ "" →
      lockAcrossNet
        ((Reconfigure tr now (some cfg) st).2.events.drop st.events.length) = true) ∧
    lockAcrossSleep ((Health noTransport 0 stOn).2.events) = true := by
  refine ⟨fun tr => emits_GetLibrary (fun r => rfl) tr,
    fun tr q => emits_SearchLibrary (fun r => rfl) tr q,
    fun tr t => emits_FindSongByTitle (fun r => rfl) tr t,
    fun tr => emits_GetPlaylists (fun r => rfl) tr,
    fun tr nm fuel => emits_FindOrCreatePlaylist (fun r => rfl) tr nm fuel,
    fun tr nm fuel => emits_CreatePlaylist (fun r => rfl) tr nm fuel,
    fun tr u v => emits_AddToPlaylist (fun r => rfl) tr u v,
    fun tr u => emits_TriggerLibraryItem (fun r => rfl) tr u,
    fun tr => emits_TriggerNextSlide (fun r => rfl) tr,
    fun tr => emits_TriggerPreviousSlide (fun r => rfl) tr,
    fun tr l => emits_ClearLayer (fun r => rfl) tr l,
    fun tr fuel a b c =>
      emits_SendToLiveQueue (fun r => rfl) (fun n => rfl) tr fuel a b c,
    ?_, ?_, ?_, rfl⟩
  · intro tr now st h
    obtain ⟨rest, hr⟩ := health_events_shape tr now st h
    rw [hr, List.drop_left]
    exact lockAcrossNet_prefix _ _
  · intro tr now st
    obtain ⟨rest, hr⟩ := tick_events_shape tr now st
    rw [hr, List.drop_left]
    exact lockAcrossNet_prefix _ _
  · intro tr now st cfg h1 h2
    obtain ⟨rest, hr⟩ := reconf_events_shape tr now st cfg h1 h2
    rw [hr, List.drop_left]
    exact lockAcrossNet_prefix _ _

theorem c2_lockDiscipline_amended_witness :
    lockAcrossNet ((Health noTransport 0 stOn).2.events.drop stOn.events.length) =
      true ∧
    lockAcrossNet
      ((Reconfigure noTransport 0 (some cfgValid) stOn).2.events.drop
        stOn.events.length) = true :=
  ⟨c2_lockDiscipline_amended.2.2.2.2.2.2.2.2.2.2.2.2.1 noTransport 0 stOn rfl,
   c2_lockDiscipline_amended.2.2.2.2.2.2.2.2.2.2.2.2.2.2.1 noTransport 0 stOn cfgValid
     rfl (by decide)⟩

/- Combinator-level state facts used to trace SendToLiveQueue runs. -/

def sleepState (ms : Nat) (s : S) : S :=
  { s with events := s.events ++ [Event.sleepMs ms] }

theorem sleepFor_run (ms : Nat) (s : S) : sleepFor ms s = ((), sleepState ms s) := rfl

theorem sleepState_cs (ms : Nat) (s : S) : (sleepState ms s).cs = s.cs := rfl

theorem sleepState_counts (ms : Nat) (s : S) : (sleepState ms s).counts = s.counts := rfl

theorem sleepState_events (ms : Nat) (s : S) :
    (sleepState ms s).events = s.events ++ [Event.sleepMs ms] := rfl

theorem bumpLibrary_cs (s : S) (q : Option String) : (bumpLibrary s q).cs = s.cs := rfl

theorem bumpLibrary_counts (s : S) (q : Option String) :
    (bumpLibrary s q).counts = { s.counts with library := s.counts.library + 1 } := rfl

theorem bumpLibrary_events (s : S) (q : Option String) :
    (bumpLibrary s q).events = s.events ++ [Event.net (Request.getLibrary q)] := rfl

theorem bumpPlaylists_counts (s : S) :
    (bumpPlaylists s).counts = { s.counts with playlists := s.counts.playlists + 1 } := rfl

theorem bumpPlaylists_events (s : S) :
    (bumpPlaylists s).events = s.events ++ [Event.net Request.getPlaylists] := rfl

theorem bumpAdd_cs (s : S) (u v : String) : (bumpAdd s u v).cs = s.cs := rfl

theorem bumpAdd_counts (s : S) (u v : String) :
    (bumpAdd s u v).counts = { s.counts with addPl := s.counts.addPl + 1 } := rfl

theorem bumpAdd_events (s : S) (u v : String) :
    (bumpAdd s u v).events = s.events ++ [Event.net (Request.putPlaylistAdd u v)] := rfl

/- A retry loop whose first attempt succeeds returns immediately. -/
theorem retry3_first_ok {alpha : Type} (act : M (Except Err alpha)) (d : Nat) (s : S)
    (a : alpha) (s2 : S) (ha : act s = (.ok a, s2)) : retry3 d act s = (.ok a, s2) := by
  simp only [retry3, bind_run, ha, pure_run]

/- FindOrCreatePlaylist with positive fuel when the listing request
   fails: the error propagates after the single listing request. -/
theorem FindOrCreatePlaylist_fail_run (tr : Transport) (nm : String) (fuel : Nat)
    (s : S) (hs : s.cs.enabled = true) (e : Err)
    (hpe : playlistsPure (tr.playlists s.counts.playlists) = .error e) :
    FindOrCreatePlaylist tr nm (fuel + 1) s = (.error e, bumpPlaylists s) := by
  rw [FindOrCreatePlaylist]
  simp only [bind_run, GetPlaylists_run tr s hs, hpe, pure_run]

/- FindOrCreatePlaylist with positive fuel when the listing succeeds and
   contains a match: the match is returned after the single listing
   request. -/
theorem FindOrCreatePlaylist_found_run (tr : Transport) (nm : String) (fuel : Nat)
    (s : S) (hs : s.cs.enabled = true) (pls : List Playlist)
    (hpls : playlistsPure (tr.playlists s.counts.playlists) = .ok pls) (pl : Playlist)
    (hm : pls.find? (fun q => normalizeName q.id.name == normalizeName nm) = some pl) :
    FindOrCreatePlaylist tr nm (fuel + 1) s = (.ok pl, bumpPlaylists s) := by
  rw [FindOrCreatePlaylist]
  simp only [bind_run, GetPlaylists_run tr s hs, hpls, hm, pure_run]

/- The three-attempt song lookup when every attempt fails: three library
   requests with backoff sleeps, and the third attempt's error is
   returned. -/
theorem retryFind_fail (tr : Transport) (title : String) (st : S)
    (h : st.cs.enabled = true)
    (hf : ∀ n, isErr (findSongPure title (searchPure (tr.library n (some title)))) = true) :
    ∃ e, findSongPure title (searchPure (tr.library (st.counts.library + 2)
        (some title))) = .error e ∧
      retry3 300 (FindSongByTitle tr title) st =
        (.error e,
         bumpLibrary (sleepState 300 (bumpLibrary (sleepState 300
           (bumpLibrary st (some title))) (some title))) (some title)) := by
  have exErr : ∀ n, ∃ e,
      findSongPure title (searchPure (tr.library n (some title))) = .error e := by
    intro n
    rcases hq : findSongPure title (searchPure (tr.library n (some title))) with e | v
    · exact ⟨e, rfl⟩
    · have hn := hf n
      rw [hq] at hn
      simp [isErr] at hn
  obtain ⟨e1, he1⟩ := exErr st.counts.library
  obtain ⟨e2, he2⟩ := exErr (st.counts.library + 1)
  obtain ⟨e3, he3⟩ := exErr (st.counts.library + 2)
  have s1 : FindSongByTitle tr title st = (.error e1, bumpLibrary st (some title)) := by
    rw [FindSongByTitle_run tr title st h, he1]
  have s2 : FindSongByTitle tr title (sleepState 300 (bumpLibrary st (some title))) =
      (.error e2,
       bumpLibrary (sleepState 300 (bumpLibrary st (some title))) (some title)) := by
    rw [FindSongByTitle_run tr title (sleepState 300 (bumpLibrary st (some title))) h]
    simp [sleepState_counts, bumpLibrary_counts, he2]
  have s3 : FindSongByTitle tr title (sleepState 300 (bumpLibrary (sleepState 300
      (bumpLibrary st (some title))) (some title))) =
      (.error e3,
       bumpLibrary (sleepState 300 (bumpLibrary (sleepState 300
         (bumpLibrary st (some title))) (some title))) (some title)) := by
    rw [FindSongByTitle_run tr title (sleepState 300 (bumpLibrary (sleepState 300
      (bumpLibrary st (some title))) (some title))) h]
    simp [sleepState_counts, bumpLibrary_counts, Nat.add_assoc, he3]
  refine ⟨e3, he3, ?_⟩
  simp only [retry3, bind_run, pure_run, s1, sleepFor_run, s2, s3]

/- The three-attempt playlist resolution when every listing fails. -/
theorem retryFoc_fail (tr : Transport) (nm : String) (fuel : Nat) (st : S)
    (h : st.cs.enabled = true)
    (hp : ∀ n, isErr (playlistsPure (tr.playlists n)) = true) :
    ∃ e, playlistsPure (tr.playlists (st.counts.playlists + 2)) = .error e ∧
      retry3 300 (FindOrCreatePlaylist tr nm (fuel + 1)) st =
        (.error e,
         bumpPlaylists (sleepState 300 (bumpPlaylists (sleepState 300
           (bumpPlaylists st))))) := by
  have exErr : ∀ n, ∃ e, playlistsPure (tr.playlists n) = .error e := by
    intro n
    rcases hq : playlistsPure (tr.playlists n) with e | v
    · exact ⟨e, rfl⟩
    · have hn := hp n
      rw [hq] at hn
      simp [isErr] at hn
  obtain ⟨e1, he1⟩ := exErr st.counts.playlists
  obtain ⟨e2, he2⟩ := exErr (st.counts.playlists + 1)
  obtain ⟨e3, he3⟩ := exErr (st.counts.playlists + 2)
  have s1 := FindOrCreatePlaylist_fail_run tr nm fuel st h e1 he1
  have s2 : FindOrCreatePlaylist tr nm (fuel + 1) (sleepState 300 (bumpPlaylists st)) =
      (.error e2, bumpPlaylists (sleepState 300 (bumpPlaylists st))) := by
    refine FindOrCreatePlaylist_fail_run tr nm fuel
      (sleepState 300 (bumpPlaylists st)) h e2 ?_
    simpa [sleepState_counts, bumpPlaylists_counts] using he2
  have s3 : FindOrCreatePlaylist tr nm (fuel + 1)
      (sleepState 300 (bumpPlaylists (sleepState 300 (bumpPlaylists st)))) =
      (.error e3,
       bumpPlaylists (sleepState 300 (bumpPlaylists (sleepState 300
         (bumpPlaylists st))))) := by
    refine FindOrCreatePlaylist_fail_run tr nm fuel
      (sleepState 300 (bumpPlaylists (sleepState 300 (bumpPlaylists st)))) h e3 ?_
    simpa [sleepState_counts, bumpPlaylists_counts, Nat.add_assoc] using he3
  refine ⟨e3, he3, ?_⟩
  simp only [retry3, bind_run, pure_run, s1, sleepFor_run, s2, s3]

/- The three-attempt add when every attempt fails. -/
theorem retryAdd_fail (tr : Transport) (u v : String) (st : S)
    (h : st.cs.enabled = true)
    (ha : ∀ n, isErr (addPure (tr.addToPlaylistEp n u v)) = true) :
    ∃ e, addPure (tr.addToPlaylistEp (st.counts.addPl + 2) u v) = .error e ∧
      retry3 300 (AddToPlaylist tr u v) st =
        (.error e,
         bumpAdd (sleepState 300 (bumpAdd (sleepState 300 (bumpAdd st u v)) u v)) u v) := by
  have exErr : ∀ n, ∃ e, addPure (tr.addToPlaylistEp n u v) = .error e := by
    intro n
    rcases hq : addPure (tr.addToPlaylistEp n u v) with e | w
    · exact ⟨e, rfl⟩
    · have hn := ha n
      rw [hq] at hn
      simp [isErr] at hn
  obtain ⟨e1, he1⟩ := exErr st.counts.addPl
  obtain ⟨e2, he2⟩ := exErr (st.counts.addPl + 1)
  obtain ⟨e3, he3⟩ := exErr (st.counts.addPl + 2)
  have s1 : AddToPlaylist tr u v st = (.error e1, bumpAdd st u v) := by
    rw [AddToPlaylist_run tr u v st h, he1]
  have s2 : AddToPlaylist tr u v (sleepState 300 (bumpAdd st u v)) =
      (.error e2, bumpAdd (sleepState 300 (bumpAdd st u v)) u v) := by
    rw [AddToPlaylist_run tr u v (sleepState 300 (bumpAdd st u v)) h]
    simp [sleepState_counts, bumpAdd_counts, he2]
  have s3 : AddToPlaylist tr u v (sleepState 300 (bumpAdd (sleepState 300
      (bumpAdd st u v)) u v)) =
      (.error e3,
       bumpAdd (sleepState 300 (bumpAdd (sleepState 300 (bumpAdd st u v)) u v)) u v) := by
    rw [AddToPlaylist_run tr u v (sleepState 300 (bumpAdd (sleepState 300
      (bumpAdd st u v)) u v)) h]
    simp [sleepState_counts, bumpAdd_counts, Nat.add_assoc, he3]
  refine ⟨e3, he3, ?_⟩
  simp only [retry3, bind_run, pure_run, s1, sleepFor_run, s2, s3]

/-- Claim C7 (confirmed): in the queue sync workflow, when item
resolution fails on all three of its attempts the workflow returns the
third attempt's error wrapped in the song-not-found tag and never sends
a playlists, create-playlist or add request; when the playlist listing
fails on all three attempts after a successful item resolution, it
returns the playlist-step tag and never sends a create or add request;
when the add fails on all three attempts after both resolutions, it
returns the add-step tag.  Each step's final failure thus aborts the
workflow with a tag naming the failed step. -/
theorem c7_workflowStepFailures :
    (∀ (tr : Transport) (fuel : Nat) (title plname lyr : String) (st : S),
      st.cs.enabled = true → title ≠ "" →
      (∀ n, isErr (findSongPure title (searchPure (tr.library n (some title)))) = true) →
      ∃ e, findSongPure title (searchPure (tr.library (st.counts.library + 2)
          (some title))) = .error e ∧
        (SendToLiveQueue tr fuel title plname lyr st).1 =
          .error (.songNotFoundInLibrary title e) ∧
        (SendToLiveQueue tr fuel title plname lyr st).2.counts.playlists =
          st.counts.playlists ∧
        (SendToLiveQueue tr fuel title plname lyr st).2.counts.createPl =
          st.counts.createPl ∧
        (SendToLiveQueue tr fuel title plname lyr st).2.counts.addPl =
          st.counts.addPl) ∧
    (∀ (tr : Transport) (fuel : Nat) (title plname lyr : String) (st : S)
      (item : LibraryItem),
      st.cs.enabled = true → title ≠ "" → plname ≠ "" →
      findSongPure title (searchPure (tr.library st.counts.library (some title))) =
        .ok item →
      (∀ n, isErr (playlistsPure (tr.playlists n)) = true) →
      ∃ e, playlistsPure (tr.playlists (st.counts.playlists + 2)) = .error e ∧
        (SendToLiveQueue tr (fuel + 1) title plname lyr st).1 =
          .error (.getOrCreatePlaylistFailed e) ∧
        (SendToLiveQueue tr (fuel + 1) title plname lyr st).2.counts.createPl =
          st.counts.createPl ∧
        (SendToLiveQueue tr (fuel + 1) title plname lyr st).2.counts.addPl =
          st.counts.addPl) ∧
    (∀ (tr : Transport) (fuel : Nat) (title plname lyr : String) (st : S)
      (item : LibraryItem) (pls : List Playlist) (pl : Playlist),
      st.cs.enabled = true → title ≠ "" → plname ≠ "" →
      findSongPure title (searchPure (tr.library st.counts.library (some title))) =
        .ok item →
      playlistsPure (tr.playlists st.counts.playlists) = .ok pls →
      pls.find? (fun q => normalizeName q.id.name == normalizeName plname) = some pl →
      (∀ n, isErr (addPure (tr.addToPlaylistEp n pl.id.uuid item.id.uuid)) = true) →
      ∃ e, addPure (tr.addToPlaylistEp (st.counts.addPl + 2) pl.id.uuid item.id.uuid) =
          .error e ∧
        (SendToLiveQueue tr (fuel + 1) title plname lyr st).1 =
          .error (.addAfterRetriesFailed e)) := by
  refine ⟨?_, ?_, ?_⟩
  · intro tr fuel title plname lyr st h ht hf
    obtain ⟨e3, he3, hr⟩ := retryFind_fail tr title st h hf
    refine ⟨e3, he3, ?_, ?_, ?_, ?_⟩ <;>
      simp [SendToLiveQueue, bind_run, pure_run, getCS, h, ht, hr,
        bumpLibrary_counts, sleepState_counts]
  · intro tr fuel title plname lyr st item h ht hpn hfind hp
    have hfOk : FindSongByTitle tr title st = (.ok item, bumpLibrary st (some title)) := by
      rw [FindSongByTitle_run tr title st h, hfind]
    have hr1 := retry3_first_ok (FindSongByTitle tr title) 300 st item _ hfOk
    obtain ⟨e, he, hr2⟩ := retryFoc_fail tr plname fuel (bumpLibrary st (some title)) h hp
    refine ⟨e, he, ?_, ?_, ?_⟩ <;>
      simp [SendToLiveQueue, bind_run, pure_run, getCS, h, ht, hpn, hr1, hr2,
        bumpLibrary_counts, bumpPlaylists_counts, sleepState_counts]
  · intro tr fuel title plname lyr st item pls pl h ht hpn hfind hpls hm hadd
    have hfOk : FindSongByTitle tr title st = (.ok item, bumpLibrary st (some title)) := by
      rw [FindSongByTitle_run tr title st h, hfind]
    have hr1 := retry3_first_ok (FindSongByTitle tr title) 300 st item _ hfOk
    have hFoc := FindOrCreatePlaylist_found_run tr plname fuel
      (bumpLibrary st (some title)) h pls hpls pl hm
    have hr2 := retry3_first_ok (FindOrCreatePlaylist tr plname (fuel + 1)) 300
      (bumpLibrary st (some title)) pl _ hFoc
    obtain ⟨e, he, hr3⟩ := retryAdd_fail tr pl.id.uuid item.id.uuid
      (bumpPlaylists (bumpLibrary st (some title))) h hadd
    refine ⟨e, he, ?_⟩
    simp [SendToLiveQueue, bind_run, pure_run, getCS, h, ht, hpn, hr1, hr2, hr3]

/-- Claim C8 (confirmed): against a device that answers the lookup, the
listing and the add on the first attempt, the queue sync workflow
returns the device-native UUID of the resolved library item, and its
whole trace contains exactly three requests, the last being the single
add-to-playlist request carrying the resolved playlist UUID and that
item UUID. -/
theorem c8_successfulSyncResult :
    ∀ (tr : Transport) (fuel : Nat) (title plname lyr : String) (st : S)
      (item : LibraryItem) (pls : List Playlist) (pl : Playlist),
      st.cs.enabled = true → title ≠ "" → plname ≠ "" →
      findSongPure title (searchPure (tr.library st.counts.library (some title))) =
        .ok item →
      playlistsPure (tr.playlists st.counts.playlists) = .ok pls →
      pls.find? (fun q => normalizeName q.id.name == normalizeName plname) = some pl →
      addPure (tr.addToPlaylistEp st.counts.addPl pl.id.uuid item.id.uuid) = .ok () →
      (SendToLiveQueue tr (fuel + 1) title plname lyr st).1 = .ok item.id.uuid ∧
      (SendToLiveQueue tr (fuel + 1) title plname lyr st).2.events =
        st.events ++ [Event.net (Request.getLibrary (some title)),
          Event.net Request.getPlaylists,
          Event.net (Request.putPlaylistAdd pl.id.uuid item.id.uuid)] := by
  intro tr fuel title plname lyr st item pls pl h ht hpn hfind hpls hm haddOk
  have hfOk : FindSongByTitle tr title st = (.ok item, bumpLibrary st (some title)) := by
    rw [FindSongByTitle_run tr title st h, hfind]
  have hr1 := retry3_first_ok (FindSongByTitle tr title) 300 st item _ hfOk
  have hFoc := FindOrCreatePlaylist_found_run tr plname fuel
    (bumpLibrary st (some title)) h pls hpls pl hm
  have hr2 := retry3_first_ok (FindOrCreatePlaylist tr plname (fuel + 1)) 300
    (bumpLibrary st (some title)) pl _ hFoc
  have hAdd : AddToPlaylist tr pl.id.uuid item.id.uuid
      (bumpPlaylists (bumpLibrary st (some title))) =
      (.ok (), bumpAdd (bumpPlaylists (bumpLibrary st (some title)))
        pl.id.uuid item.id.uuid) := by
    rw [AddToPlaylist_run tr pl.id.uuid item.id.uuid
      (bumpPlaylists (bumpLibrary st (some title))) h]
    simp [bumpPlaylists_counts, bumpLibrary_counts, haddOk]
  have hr3 := retry3_first_ok (AddToPlaylist tr pl.id.uuid item.id.uuid) 300
    (bumpPlaylists (bumpLibrary st (some title))) () _ hAdd
  constructor <;>
    simp [SendToLiveQueue, bind_run, pure_run, getCS, h, ht, hpn, hr1, hr2, hr3,
      bumpLibrary_events, bumpPlaylists_events, bumpAdd_events]

/- Witness fixtures: a library item, and devices for each workflow
   scenario. -/
def itemX : LibraryItem := ⟨⟨"itm-1", "song a", "presentation"⟩, "presentation"⟩

def trSongNoPl : Transport :=
  { noTransport with library := fun _ _ => .resp 200 (some [itemX]) }

def trAddRej : Transport :=
  { trSongNoPl with
      playlists := fun _ => .resp 200 (some [plLive])
      addToPlaylistEp := fun _ _ _ => .resp 400 () }

def trQueueOk : Transport :=
  { trAddRej with addToPlaylistEp := fun _ _ _ => .resp 200 () }

theorem c7_workflowStepFailures_witness :
    (SendToLiveQueue noTransport 1 "song a" "Live Queue" "" stOn).1 =
      .error (.songNotFoundInLibrary "song a" (.searchLibraryFailed "down")) ∧
    (SendToLiveQueue trSongNoPl 1 "song a" "Live Queue" "" stOn).1 =
      .error (.getOrCreatePlaylistFailed (.fetchPlaylistsFailed "down")) ∧
    (SendToLiveQueue trAddRej 1 "song a" "Live Queue" "" stOn).1 =
      .error (.addAfterRetriesFailed (.addToPlaylistStatus 400)) := by
  refine ⟨?_, ?_, ?_⟩
  · obtain ⟨e, he, hres, _, _, _⟩ := c7_workflowStepFailures.1 noTransport 1 "song a"
      "Live Queue" "" stOn rfl (by decide) (fun n => rfl)
    have hc : findSongPure "song a" (searchPure (noTransport.library
        (stOn.counts.library + 2) (some "song a"))) =
        .error (.searchLibraryFailed "down") := rfl
    have he2 := he.symm.trans hc
    injection he2 with hE
    subst hE
    exact hres
  · obtain ⟨e, he, hres, _, _⟩ := c7_workflowStepFailures.2.1 trSongNoPl 0 "song a"
      "Live Queue" "" stOn itemX rfl (by decide) (by decide) (by decide) (fun n => rfl)
    have hc : playlistsPure (trSongNoPl.playlists (stOn.counts.playlists + 2)) =
        .error (.fetchPlaylistsFailed "down") := rfl
    have he2 := he.symm.trans hc
    injection he2 with hE
    subst hE
    exact hres
  · obtain ⟨e, he, hres⟩ := c7_workflowStepFailures.2.2 trAddRej 0 "song a"
      "Live Queue" "" stOn itemX [plLive] plLive rfl (by decide) (by decide)
      (by decide) rfl (by decide) (fun n => rfl)
    have hc : addPure (trAddRej.addToPlaylistEp (stOn.counts.addPl + 2)
        plLive.id.uuid itemX.id.uuid) = .error (.addToPlaylistStatus 400) := rfl
    have he2 := he.symm.trans hc
    injection he2 with hE
    subst hE
    exact hres

theorem c8_successfulSyncResult_witness :
    (SendToLiveQueue trQueueOk 1 "song a" "Live Queue" "" stOn).1 = .ok "itm-1" ∧
    (SendToLiveQueue trQueueOk 1 "song a" "Live Queue" "" stOn).2.events =
      [Event.net (Request.getLibrary (some "song a")), Event.net Request.getPlaylists,
       Event.net (Request.putPlaylistAdd "pl-1" "itm-1")] := by
  have h := c8_successfulSyncResult trQueueOk 0 "song a" "Live Queue" "" stOn itemX
    [plLive] plLive rfl (by decide) (by decide) (by decide) rfl (by decide) rfl
  exact ⟨h.1, h.2⟩

end ProP
